import Mathlib

/-!
Shallow embedding of the upload-and-classify pipeline of
`learn-file-storage-s3-golang-starter` (files `handler_upload_video.go` and
the thumbnail-upload handler).

External collaborators (HTTP framing, JWT validation, the metadata store,
the S3 client, `crypto/rand`, the `ffprobe` subprocess, `os.CreateTemp`) are
modelled as an environment of call results; the handler bodies themselves —
their exact sequencing, branch conditions, response statuses/messages, and
effect emissions — are translated statement-by-statement from the Go source.

Go conventions reproduced here:
* Go `int` division truncates toward zero: `Int.tdiv`.
* `strings.Split(s, "/")` with a non-empty separator is `String.splitOn`.
* Indexing a slice out of range panics; a panic outcome is a distinct
  terminal result (`HResult.panicked`), not an HTTP response.
* `defer` runs on every exit of the enclosing function; it is modelled by
  running the rest of the handler as a sub-function and applying the
  deferred effect to whatever that sub-function returns.
-/

set_option autoImplicit false

namespace Tubely

/-- One entry of the `streams` array in the ffprobe JSON output
(`FFProbeOutput.Streams` in the source). -/
structure FFStream where
  codec_type : String
  width : Int
  height : Int
deriving Repr, DecidableEq

/-- The parsed ffprobe JSON document (`FFProbeOutput` in the source). -/
structure FFProbeOutput where
  streams : List FFStream
deriving Repr, DecidableEq

/-- The loop of `getVideoAspectRatio` (source lines 178–184): start from
`width, height = 0, 0` and overwrite with each video-typed stream, so the
last video-typed stream wins. -/
def lastVideoDims (streams : List FFStream) : Int × Int :=
  streams.foldl
    (fun acc stream =>
      if stream.codec_type = "video" then (stream.width, stream.height) else acc)
    (0, 0)

/-- The if-chain of `getVideoAspectRatio` (source lines 186–191), with Go
integer division (`Int.tdiv` truncates toward zero exactly as Go `/`). -/
def classifyDims (width height : Int) : String :=
  if width = Int.tdiv (16 * height) 9 then "16:9"
  else if height = Int.tdiv (16 * width) 9 then "9:16"
  else "other"

/-- `getVideoAspectRatio` (source lines 158–192).  The subprocess boundary is
the argument: `none` models ffprobe output that `json.Unmarshal` rejects
(including the empty output left when the subprocess could not run — the
source ignores `cmd.Run()`'s error, so a run failure surfaces only as the
unmarshal failure on empty bytes); `some data` models a successful parse. -/
def getVideoAspectRatio (probeOutput : Option FFProbeOutput) : Except String String :=
  match probeOutput with
  | none => Except.error "unexpected end of JSON input"
  | some data =>
      let wh := lastVideoDims data.streams
      Except.ok (classifyDims wh.1 wh.2)

/-- Folding more streams that are not video-typed does not change the
accumulated dimensions. -/
theorem lastVideoDims_foldl_no_video (post : List FFStream) (acc : Int × Int)
    (h : ∀ t ∈ post, t.codec_type ≠ "video") :
    post.foldl
      (fun acc stream =>
        if stream.codec_type = "video" then (stream.width, stream.height) else acc)
      acc = acc := by
  induction post generalizing acc with
  | nil => rfl
  | cons t ts ih =>
      have ht : t.codec_type ≠ "video" := h t (List.mem_cons_self t ts)
      simp only [List.foldl_cons, if_neg ht]
      exact ih acc (fun u hu => h u (List.mem_cons_of_mem t hu))

/-- With a video-typed stream `s` followed only by non-video streams, the
loop ends holding `s`'s dimensions, whatever came before. -/
theorem lastVideoDims_append (pre post : List FFStream) (s : FFStream)
    (hs : s.codec_type = "video") (hpost : ∀ t ∈ post, t.codec_type ≠ "video") :
    lastVideoDims (pre ++ s :: post) = (s.width, s.height) := by
  unfold lastVideoDims
  rw [List.foldl_append, List.foldl_cons, if_pos hs]
  exact lastVideoDims_foldl_no_video post _ hpost

/-- The 64-character alphabet of Go's `base64.RawURLEncoding`
(RFC 4648 URL-safe, in order). -/
def base64UrlAlphabet : List Char :=
  "ABCDEFGHIJKLMNOPQRSTUVWXYZabcdefghijklmnopqrstuvwxyz0123456789-_".toList

/-- The alphabet character at a 6-bit index. -/
def b64Char (n : Nat) : Char :=
  base64UrlAlphabet.getD n 'A'

/-- Go's `base64.RawURLEncoding.EncodeToString`: URL-safe base64 of a byte
sequence with no padding (RFC 4648 §5, padding omitted). -/
def base64RawUrlEncode : List Nat → String
  | [] => ""
  | [b1] =>
      String.mk [b64Char (b1 / 4), b64Char (b1 % 4 * 16)]
  | [b1, b2] =>
      String.mk [b64Char (b1 / 4), b64Char (b1 % 4 * 16 + b2 / 16),
        b64Char (b2 % 16 * 4)]
  | b1 :: b2 :: b3 :: rest =>
      String.mk [b64Char (b1 / 4), b64Char (b1 % 4 * 16 + b2 / 16),
        b64Char (b2 % 16 * 4 + b3 / 64), b64Char (b3 % 64)]
        ++ base64RawUrlEncode rest

/-- Split a character list around every occurrence of `c`
(the n+1 fields of Go's `strings.Split` for a one-character separator). -/
def splitOnChar (c : Char) : List Char → List (List Char)
  | [] => [[]]
  | x :: xs =>
      match splitOnChar c xs with
      | [] => if x = c then [[], []] else [[x]]
      | y :: ys => if x = c then [] :: y :: ys else (x :: y) :: ys

/-- Go's `strings.Split(s, "/")`: the substrings of `s` between slashes
(never empty; one element when `s` has no slash). -/
def goSplitSlash (s : String) : List String :=
  (splitOnChar '/' s.toList).map String.mk

/-- The video metadata record (`database.Video`): identity, owning user,
optional video URL, optional thumbnail URL.  Descriptive fields the handlers
never touch are omitted. -/
structure VideoRecord where
  id : String
  userID : String
  videoURL : Option String := none
  thumbnailURL : Option String := none
deriving Repr, DecidableEq

/-- The argument record of an S3 `PutObject` call (`s3.PutObjectInput`);
the body is the staged file and is not value-modelled. -/
structure PutObjectInput where
  bucket : String
  key : String
  contentType : String
deriving Repr, DecidableEq

/-- A response body: an error message or a serialized metadata record. -/
inductive RBody where
  | err (msg : String)
  | record (v : VideoRecord)
deriving Repr, DecidableEq

/-- A terminal handler outcome: an HTTP response
(via `respondWithError` / `respondWithJSON`), or a Go runtime panic. -/
inductive HResult where
  | resp (status : Nat) (body : RBody)
  | panicked
deriving Repr, DecidableEq

/-- Results of the external calls a single `handlerUploadVideo` request makes,
in source order.  Each fallible collaborator contributes its outcome; the
handler body below consumes them exactly where the source calls them. -/
structure Env where
  /-- `uuid.Parse(videoIdString)` (line 29). -/
  parseVideoId : Except String String
  /-- `auth.GetBearerToken(r.Header)` (line 36). -/
  bearerToken : Except String String
  /-- `auth.ValidateJWT(token, cfg.jwtSecret)` (line 43). -/
  validateJWT : Except String String
  /-- `cfg.db.GetVideo(videoId)` (line 50); the ok value is also the record
  the metadata store holds before the request. -/
  getVideo : Except String VideoRecord
  /-- Total size in bytes of the inbound request body, against which
  `http.MaxBytesReader` (line 23) enforces the ceiling. -/
  bodySize : Nat
  /-- `r.FormFile("video")` (line 63), beyond the size ceiling: whether the
  multipart form itself is well-formed with a `video` part. -/
  formFile : Except String Unit
  /-- `mime.ParseMediaType(header.Header.Get("Content-Type"))` (line 71):
  the parsed media type of the `video` part. -/
  parseMediaType : Except String String
  /-- `os.CreateTemp("", "tubely-upload.mp4")` (line 87). -/
  createTemp : Except String String
  /-- `io.Copy(tempFile, videoFile)` (line 96) succeeding, beyond the size
  ceiling (disk errors and the like). -/
  copyOk : Bool
  /-- `rand.Read(videoRandomName)` (line 107) succeeding. -/
  randReadOk : Bool
  /-- The 32 bytes `crypto/rand` wrote into the `make([]byte, 32)` buffer. -/
  randBytes : Fin 32 → Nat
  /-- The ffprobe output for the staged file, as consumed by
  `getVideoAspectRatio` (line 113): `none` when unparsable. -/
  probe : Option FFProbeOutput
  /-- `cfg.s3Client.PutObject(...)` (line 134) succeeding. -/
  putObjectOk : Bool
  /-- `cfg.db.UpdateVideo(videoMetadata)` (line 149) succeeding. -/
  updateVideoOk : Bool
  /-- `cfg.s3Bucket`. -/
  s3Bucket : String
  /-- `cfg.s3Region`. -/
  s3Region : String

/-- The observable side effects a `handlerUploadVideo` request emits. -/
structure Effects where
  /-- A staged temporary file was created (line 87 succeeded). -/
  tempFileCreated : Bool := false
  /-- `os.Remove(tempFile.Name())` ran (deferred at line 92). -/
  tempFileRemoved : Bool := false
  /-- `tempFile.Close()` ran (deferred at line 93). -/
  tempFileClosed : Bool := false
  /-- `getVideoAspectRatio` was invoked (line 113). -/
  probeCalled : Bool := false
  /-- The argument of the `PutObject` call, when one was issued (line 134). -/
  putArg : Option PutObjectInput := none
  /-- The record passed to `UpdateVideo`, when a call was issued (line 149). -/
  updateArg : Option VideoRecord := none
deriving Repr, DecidableEq

/-- The request-body ceiling installed by
`http.MaxBytesReader(w, r.Body, 1<<30)` (source line 23), before any body
bytes are read. -/
def maxUploadBytes : Nat := 1 <<< 30

/-- The `switch aspectRatio` statement (source lines 120–127). -/
def directoryFor (aspectRatio : String) : String :=
  if aspectRatio = "16:9" then "landscape"
  else if aspectRatio = "9:16" then "portrait"
  else "other"

/-- Source lines 96–155: everything after the staged temporary file exists.
Factored out so the deferred cleanup (lines 92–93) can be applied to every
outcome of this part, exactly as Go's `defer` does. -/
def afterStaging (env : Env) (videoMetadata : VideoRecord)
    (mediaType extension : String) : HResult × Effects :=
  if env.copyOk = false then
    (.resp 500 (.err "Couldn't write video data"), {})
  else
    -- tempFile.Seek(0, io.SeekStart): cursor movement, no observable effect
    if env.randReadOk = false then
      (.resp 500 (.err "Couldn't generate random name"), {})
    else
      let videoRandomName := List.ofFn env.randBytes
      match getVideoAspectRatio env.probe with
      | Except.error _ =>
          (.resp 500 (.err "Couldn't get aspect ratio"), { probeCalled := true })
      | Except.ok aspectRatio =>
          let directory := directoryFor aspectRatio
          let encodedVideoName :=
            directory ++ "/" ++ base64RawUrlEncode videoRandomName ++ "." ++ extension
          let putInput : PutObjectInput :=
            ⟨env.s3Bucket, encodedVideoName, mediaType⟩
          if env.putObjectOk = false then
            (.resp 500 (.err "Couldn't upload to S3"),
              { probeCalled := true, putArg := some putInput })
          else
            let videoURL := "https://" ++ env.s3Bucket ++ ".s3." ++ env.s3Region
              ++ ".amazonaws.com/" ++ encodedVideoName
            let updated := { videoMetadata with videoURL := some videoURL }
            if env.updateVideoOk = false then
              (.resp 500 (.err "Couldn't update video"),
                { probeCalled := true, putArg := some putInput,
                  updateArg := some updated })
            else
              (.resp 200 (.record updated),
                { probeCalled := true, putArg := some putInput,
                  updateArg := some updated })

/-- `handlerUploadVideo` (source lines 21–156), statement by statement. -/
def runHandler (env : Env) : HResult × Effects :=
  -- line 23: r.Body = http.MaxBytesReader(w, r.Body, 1<<30)
  match env.parseVideoId with
  | Except.error _ => (.resp 400 (.err "Invalid ID"), {})
  | Except.ok _videoId =>
    match env.bearerToken with
    | Except.error _ => (.resp 401 (.err "Couldn't find JWT"), {})
    | Except.ok _token =>
      match env.validateJWT with
      | Except.error _ => (.resp 401 (.err "Couldn't validate JWT"), {})
      | Except.ok userId =>
        match env.getVideo with
        | Except.error _ => (.resp 500 (.err "Couldn't find video metadata"), {})
        | Except.ok videoMetadata =>
          if videoMetadata.userID ≠ userId then
            (.resp 401 (.err "User not authorized"), {})
          else
            -- r.FormFile reads the body through the MaxBytesReader limit
            match (if maxUploadBytes < env.bodySize then
                Except.error "http: request body too large" else env.formFile) with
            | Except.error _ => (.resp 400 (.err "Unable to parse video file"), {})
            | Except.ok _ =>
              match env.parseMediaType with
              | Except.error _ => (.resp 400 (.err "Invalid ID"), {})
              | Except.ok mediaType =>
                -- line 78: strings.Split(mediaType, "/")[1]
                match (goSplitSlash mediaType)[1]? with
                | none => (.panicked, {})  -- index out of range
                | some extension =>
                  if mediaType ≠ "video/mp4" then
                    (.resp 400 (.err "Invalid file upload"), {})
                  else
                    match env.createTemp with
                    | Except.error _ =>
                        (.resp 500 (.err "Couldn't create temp file"), {})
                    | Except.ok _name =>
                        let r := afterStaging env videoMetadata mediaType extension
                        (r.1, { r.2 with tempFileCreated := true, tempFileRemoved := true, tempFileClosed := true })

/-- The record the metadata store holds after the request: `UpdateVideo`
replaces it only when it was called and succeeded. -/
def dbAfter (env : Env) : Option VideoRecord :=
  match (runHandler env).2.updateArg with
  | some r => if env.updateVideoOk then some r else env.getVideo.toOption
  | none => env.getVideo.toOption

/-- Results of the external calls a single `handlerUploadThumbnail` request
makes, in source order. -/
structure ThumbEnv where
  /-- `uuid.Parse(videoIDString)`; the ok value is `videoID.String()`. -/
  parseVideoId : Except String String
  /-- `auth.GetBearerToken(r.Header)`. -/
  bearerToken : Except String String
  /-- `auth.ValidateJWT(token, cfg.jwtSecret)`. -/
  validateJWT : Except String String
  /-- `r.FormFile("thumbnail")` (the `r.ParseMultipartForm(maxMemory)` error
  just before it is discarded by the source). -/
  formFile : Except String Unit
  /-- `headers.Header.Get("Content-Type")`: the raw header value, used
  unparsed. -/
  contentType : String
  /-- `cfg.db.GetVideo(videoID)`. -/
  getVideo : Except String VideoRecord
  /-- `cfg.assetsRoot`. -/
  assetsRoot : String
  /-- `cfg.port`. -/
  port : String
  /-- `os.Create(filePath + "." + fileExtension)` succeeding. -/
  createOk : Bool
  /-- `io.Copy(out, file)` succeeding. -/
  copyOk : Bool
  /-- `cfg.db.UpdateVideo(videoMetadata)` succeeding. -/
  updateVideoOk : Bool

/-- `handlerUploadThumbnail` (thumbnail source lines 15–85), statement by
statement; `filepath.Join` is rendered as a `/`-separated concatenation. -/
def runThumbnailHandler (env : ThumbEnv) : HResult :=
  match env.parseVideoId with
  | Except.error _ => .resp 400 (.err "Invalid ID")
  | Except.ok videoID =>
    match env.bearerToken with
    | Except.error _ => .resp 401 (.err "Couldn't find JWT")
    | Except.ok _token =>
      match env.validateJWT with
      | Except.error _ => .resp 401 (.err "Couldn't validate JWT")
      | Except.ok userID =>
        match env.formFile with
        | Except.error _ => .resp 400 (.err "Unable to parse form file")
        | Except.ok _ =>
          let mediaType := env.contentType
          match env.getVideo with
          | Except.error _ => .resp 500 (.err "Unabel to fetch video metadata")
          | Except.ok videoMetadata =>
            if userID ≠ videoMetadata.userID then
              .resp 401 (.err "Not allowed")
            else
              let _filePath := env.assetsRoot ++ "/" ++ videoID
              -- line 62: strings.Split(mediaType, "/")[1]
              match (goSplitSlash mediaType)[1]? with
              | none => .panicked  -- index out of range
              | some fileExtension =>
                if env.createOk = false then
                  .resp 500 (.err "Couldn't create file")
                else if env.copyOk = false then
                  .resp 500 (.err "Couldn't write data")
                else
                  let thumbnailURL := "http://localhost:" ++ env.port
                    ++ "/assets/" ++ videoID ++ "." ++ fileExtension
                  let updated := { videoMetadata with thumbnailURL := some thumbnailURL }
                  if env.updateVideoOk = false then
                    .resp 400 (.err "Unable to update video")
                  else
                    .resp 200 (.record updated)

/-- Whether a handler outcome is an error response produced by
`respondWithError` (as opposed to a 200 or a panic). -/
def isErrorResponse : HResult → Bool
  | .resp _ (.err _) => true
  | _ => false

/-- `strings.Split("video/mp4", "/")[1]` is `"mp4"`. -/
theorem goSplitSlash_video_mp4 : (goSplitSlash "video/mp4")[1]? = some "mp4" := by
  decide

/-- The `switch` always lands in one of the three categories. -/
theorem directoryFor_mem (aspectRatio : String) :
    directoryFor aspectRatio ∈ (["landscape", "portrait", "other"] : List String) := by
  unfold directoryFor
  split
  · simp
  · split <;> simp

/-- A sample metadata record used to instantiate the handler theorems. -/
def sampleRecord : VideoRecord :=
  { id := "vid-1", userID := "user-1" }

/-- A sample environment in which every external call succeeds and the
caller owns the video. -/
def baseEnv : Env where
  parseVideoId := Except.ok "vid-1"
  bearerToken := Except.ok "token"
  validateJWT := Except.ok "user-1"
  getVideo := Except.ok sampleRecord
  bodySize := 1024
  formFile := Except.ok ()
  parseMediaType := Except.ok "video/mp4"
  createTemp := Except.ok "tubely-upload.mp4"
  copyOk := true
  randReadOk := true
  randBytes := fun _ => 0
  probe := some ⟨[⟨"video", 1920, 1080⟩]⟩
  putObjectOk := true
  updateVideoOk := true
  s3Bucket := "tubely"
  s3Region := "us-east-1"

/-- A sample environment for the thumbnail handler in which every external
call succeeds and the caller owns the video. -/
def baseThumbEnv : ThumbEnv where
  parseVideoId := Except.ok "vid-1"
  bearerToken := Except.ok "token"
  validateJWT := Except.ok "user-1"
  formFile := Except.ok ()
  contentType := "image/png"
  getVideo := Except.ok sampleRecord
  assetsRoot := "assets"
  port := "8091"
  createOk := true
  copyOk := true
  updateVideoOk := true

/-- C1: the orientation classification computed by `getVideoAspectRatio` is
a pure function of the width and height of the last video-typed stream in
the probe output (a later video stream overwrites an earlier one), and
follows the integer-truncation rule of `classifyDims`; in particular
classify(1920,1080) = "16:9" (landscape), classify(1080,1920) = "9:16"
(portrait), classify(1000,1000) = "other". -/
theorem aspectRatio_last_video_stream_rule :
    (∀ (pre post : List FFStream) (s : FFStream),
      s.codec_type = "video" → (∀ t ∈ post, t.codec_type ≠ "video") →
      getVideoAspectRatio (some ⟨pre ++ s :: post⟩)
        = Except.ok (classifyDims s.width s.height))
    ∧ classifyDims 1920 1080 = "16:9"
    ∧ classifyDims 1080 1920 = "9:16"
    ∧ classifyDims 1000 1000 = "other" := by
  refine ⟨?_, by decide, by decide, by decide⟩
  intro pre post s hs hpost
  simp only [getVideoAspectRatio]
  rw [lastVideoDims_append pre post s hs hpost]

/-- Witness for C1: a video stream after an audio stream decides the
classification. -/
theorem aspectRatio_last_video_stream_rule_witness :
    getVideoAspectRatio (some ⟨[⟨"audio", 0, 0⟩, ⟨"video", 640, 480⟩]⟩)
      = Except.ok (classifyDims 640 480) := by
  exact aspectRatio_last_video_stream_rule.1 [⟨"audio", 0, 0⟩] []
    ⟨"video", 640, 480⟩ rfl (by simp)

/-- C6: `getVideoAspectRatio` fails exactly when the probe output cannot be
parsed as the expected structure (a subprocess that cannot run leaves empty,
unparsable output, since its error is discarded); parsed output always
classifies, so malformed output is never silently mapped to "other". -/
theorem probe_parse_failure_errors :
    getVideoAspectRatio none = Except.error "unexpected end of JSON input"
    ∧ (∀ data : FFProbeOutput, ∃ s, getVideoAspectRatio (some data) = Except.ok s)
    ∧ (∀ (o : Option FFProbeOutput) (e : String),
        getVideoAspectRatio o = Except.error e → o = none) := by
  refine ⟨rfl, fun data => ⟨_, rfl⟩, ?_⟩
  intro o e h
  cases o with
  | none => rfl
  | some data => simp [getVideoAspectRatio] at h

/-- Witness for C6: the only error case is unparsable output. -/
theorem probe_parse_failure_errors_witness :
    (none : Option FFProbeOutput) = none :=
  probe_parse_failure_errors.2.2 none "unexpected end of JSON input" rfl

/-- C9: probe output that parses but contains no video-typed stream leaves
width = height = 0, so `getVideoAspectRatio` returns "16:9" (0 = 16*0/9)
and the upload is filed under the landscape category. -/
theorem no_video_stream_landscape :
    (∀ streams : List FFStream, (∀ s ∈ streams, s.codec_type ≠ "video") →
      getVideoAspectRatio (some ⟨streams⟩) = Except.ok "16:9")
    ∧ directoryFor "16:9" = "landscape" := by
  refine ⟨?_, rfl⟩
  intro streams h
  simp only [getVideoAspectRatio]
  have h0 : lastVideoDims streams = (0, 0) :=
    lastVideoDims_foldl_no_video streams (0, 0) h
  rw [h0]
  rfl

/-- Witness for C9: an audio-only stream list is classified "16:9". -/
theorem no_video_stream_landscape_witness :
    getVideoAspectRatio (some ⟨[⟨"audio", 0, 0⟩]⟩) = Except.ok "16:9" :=
  no_video_stream_landscape.1 [⟨"audio", 0, 0⟩] (by simp)

/-- C2: when the authenticated caller is not the owner of the target video,
the handler answers 401 before any staging, upload, or persistence: no
temporary file, no PutObject, no UpdateVideo, metadata unchanged. -/
theorem unauthorized_rejected_before_staging (env : Env) (v t uid : String)
    (rec : VideoRecord)
    (hv : env.parseVideoId = Except.ok v)
    (ht : env.bearerToken = Except.ok t)
    (hj : env.validateJWT = Except.ok uid)
    (hg : env.getVideo = Except.ok rec)
    (hne : rec.userID ≠ uid) :
    runHandler env = (HResult.resp 401 (RBody.err "User not authorized"), {})
    ∧ (runHandler env).2.tempFileCreated = false
    ∧ (runHandler env).2.putArg = none
    ∧ (runHandler env).2.updateArg = none
    ∧ dbAfter env = some rec := by
  have hrun : runHandler env
      = (HResult.resp 401 (RBody.err "User not authorized"), {}) := by
    simp only [runHandler, hv, ht, hj, hg]
    simp [hne]
  refine ⟨hrun, ?_, ?_, ?_, ?_⟩ <;> simp [dbAfter, hrun, hg, Except.toOption]

/-- Witness for C2: a non-owning caller in an otherwise-healthy request. -/
theorem unauthorized_rejected_before_staging_witness :
    runHandler { baseEnv with validateJWT := Except.ok "intruder" }
        = (HResult.resp 401 (RBody.err "User not authorized"), {})
    ∧ (runHandler { baseEnv with validateJWT := Except.ok "intruder" }).2.tempFileCreated = false
    ∧ (runHandler { baseEnv with validateJWT := Except.ok "intruder" }).2.putArg = none
    ∧ (runHandler { baseEnv with validateJWT := Except.ok "intruder" }).2.updateArg = none
    ∧ dbAfter { baseEnv with validateJWT := Except.ok "intruder" } = some sampleRecord :=
  unauthorized_rejected_before_staging _ "vid-1" "token" "intruder" sampleRecord
    rfl rfl rfl rfl (by decide)

/-- C3: the request body is capped at exactly 1 GiB, and any request whose
body exceeds that ceiling ends in an error response with no PutObject call
ever issued. -/
theorem oversized_body_no_putobject :
    maxUploadBytes = 2 ^ 30
    ∧ ∀ env : Env, maxUploadBytes < env.bodySize →
        isErrorResponse (runHandler env).1 = true
        ∧ (runHandler env).2.putArg = none := by
  refine ⟨by decide, ?_⟩
  intro env h
  obtain ⟨pv, bt, vj, gv, bs, ff, pm, ct, cp, rr, rb, pr, po, uv, bu, re⟩ := env
  rcases pv with e | v
  · exact ⟨rfl, rfl⟩
  rcases bt with e | t
  · exact ⟨rfl, rfl⟩
  rcases vj with e | uid
  · exact ⟨rfl, rfl⟩
  rcases gv with e | rec
  · exact ⟨rfl, rfl⟩
  by_cases ho : rec.userID = uid <;>
    simp_all [runHandler, isErrorResponse]

/-- Witness for C3: a body one byte over the ceiling is rejected with no
PutObject call. -/
theorem oversized_body_no_putobject_witness :
    isErrorResponse (runHandler { baseEnv with bodySize := 2 ^ 30 + 1 }).1 = true
    ∧ (runHandler { baseEnv with bodySize := 2 ^ 30 + 1 }).2.putArg = none :=
  oversized_body_no_putobject.2 { baseEnv with bodySize := 2 ^ 30 + 1 } (by decide)

/-- C8: once the staged temporary file exists, the deferred cleanup removes
it and closes its handle on every exit path of the handler. -/
theorem temp_file_cleanup_all_paths (env : Env)
    (h : (runHandler env).2.tempFileCreated = true) :
    (runHandler env).2.tempFileRemoved = true
    ∧ (runHandler env).2.tempFileClosed = true := by
  obtain ⟨pv, bt, vj, gv, bs, ff, pm, ct, cp, rr, rb, pr, po, uv, bu, re⟩ := env
  rcases pv with e | v
  · simp [runHandler] at h
  rcases bt with e | t
  · simp [runHandler] at h
  rcases vj with e | uid
  · simp [runHandler] at h
  rcases gv with e | rec
  · simp [runHandler] at h
  by_cases ho : rec.userID = uid
  case neg => simp [runHandler, ho] at h
  by_cases hsize : maxUploadBytes < bs
  · simp [runHandler, ho, hsize] at h
  rcases ff with e | u
  · simp [runHandler, ho, hsize] at h
  rcases pm with e | mt
  · simp [runHandler, ho, hsize] at h
  rcases hsplit : (goSplitSlash mt)[1]? with _ | ext
  · simp [runHandler, ho, hsize, hsplit] at h
  by_cases hmp4 : mt = "video/mp4"
  case neg => simp [runHandler, ho, hsize, hsplit, hmp4] at h
  rcases ct with e | name
  · simp [runHandler, ho, hsize, hsplit, hmp4, goSplitSlash_video_mp4] at h
  · constructor <;> simp [runHandler, ho, hsize, hsplit, hmp4, goSplitSlash_video_mp4]

/-- Witness for C8: the happy path stages a file and cleans it up. -/
theorem temp_file_cleanup_all_paths_witness :
    (runHandler baseEnv).2.tempFileRemoved = true
    ∧ (runHandler baseEnv).2.tempFileClosed = true :=
  temp_file_cleanup_all_paths baseEnv (by decide)

/-- C4: when the PutObject call fails, the handler answers 500 without
calling UpdateVideo, and the metadata store still holds the original record
with its video reference unset. -/
theorem putobject_failure_no_metadata_write (env : Env)
    (v t uid name : String) (rec : VideoRecord) (data : FFProbeOutput)
    (hv : env.parseVideoId = Except.ok v)
    (ht : env.bearerToken = Except.ok t)
    (hj : env.validateJWT = Except.ok uid)
    (hg : env.getVideo = Except.ok rec)
    (ho : rec.userID = uid)
    (hb : env.bodySize ≤ maxUploadBytes)
    (hf : env.formFile = Except.ok ())
    (hm : env.parseMediaType = Except.ok "video/mp4")
    (hc : env.createTemp = Except.ok name)
    (hcp : env.copyOk = true)
    (hr : env.randReadOk = true)
    (hpr : env.probe = some data)
    (hput : env.putObjectOk = false) :
    (runHandler env).1 = HResult.resp 500 (RBody.err "Couldn't upload to S3")
    ∧ (runHandler env).2.updateArg = none
    ∧ dbAfter env = some rec := by
  have hnb : ¬ maxUploadBytes < env.bodySize := not_lt.mpr hb
  refine ⟨?_, ?_, ?_⟩ <;>
    simp [runHandler, afterStaging, dbAfter, getVideoAspectRatio, goSplitSlash_video_mp4,
      hv, ht, hj, hg, ho, hnb, hf, hm, hc, hcp, hr, hpr, hput, Except.toOption]

/-- Witness for C4: an S3 outage after a healthy staging leaves the record
untouched. -/
theorem putobject_failure_no_metadata_write_witness :
    (runHandler { baseEnv with putObjectOk := false }).1
        = HResult.resp 500 (RBody.err "Couldn't upload to S3")
    ∧ (runHandler { baseEnv with putObjectOk := false }).2.updateArg = none
    ∧ dbAfter { baseEnv with putObjectOk := false } = some sampleRecord :=
  putobject_failure_no_metadata_write _ "vid-1" "token" "user-1" "tubely-upload.mp4"
    sampleRecord ⟨[⟨"video", 1920, 1080⟩]⟩ rfl rfl rfl rfl rfl (by decide)
    rfl rfl rfl rfl rfl rfl rfl

/-- Counterexample to C5 as stated: a parsed media type with no `/`
(here `"mp4"`) is not rejected with a 400 response — the handler panics on
the out-of-range index at line 78 before the `video/mp4` check. -/
theorem slashless_media_type_not_rejected_400 :
    (runHandler { baseEnv with parseMediaType := Except.ok "mp4" }).1 = HResult.panicked
    ∧ isErrorResponse HResult.panicked = false := by
  exact ⟨by decide, rfl⟩

/-- C5 (amended): every request whose parsed media type contains a `/` and
differs from `video/mp4` is rejected 400 with no classification, upload, or
metadata write, and the record is unchanged. -/
theorem non_mp4_with_slash_rejected (env : Env) (v t uid mt ext : String)
    (rec : VideoRecord)
    (hv : env.parseVideoId = Except.ok v)
    (ht : env.bearerToken = Except.ok t)
    (hj : env.validateJWT = Except.ok uid)
    (hg : env.getVideo = Except.ok rec)
    (ho : rec.userID = uid)
    (hb : env.bodySize ≤ maxUploadBytes)
    (hf : env.formFile = Except.ok ())
    (hm : env.parseMediaType = Except.ok mt)
    (hext : (goSplitSlash mt)[1]? = some ext)
    (hne : mt ≠ "video/mp4") :
    runHandler env = (HResult.resp 400 (RBody.err "Invalid file upload"), {})
    ∧ dbAfter env = some rec := by
  have hnb : ¬ maxUploadBytes < env.bodySize := not_lt.mpr hb
  have hrun : runHandler env
      = (HResult.resp 400 (RBody.err "Invalid file upload"), {}) := by
    simp [runHandler, hv, ht, hj, hg, ho, hnb, hf, hm, hext, hne]
  exact ⟨hrun, by simp [dbAfter, hrun, hg, Except.toOption]⟩

/-- Witness for amended C5: `video/quicktime` is rejected with 400 and no
effects. -/
theorem non_mp4_with_slash_rejected_witness :
    runHandler { baseEnv with parseMediaType := Except.ok "video/quicktime" }
        = (HResult.resp 400 (RBody.err "Invalid file upload"), {})
    ∧ dbAfter { baseEnv with parseMediaType := Except.ok "video/quicktime" }
        = some sampleRecord :=
  non_mp4_with_slash_rejected _ "vid-1" "token" "user-1" "video/quicktime" "quicktime"
    sampleRecord rfl rfl rfl rfl rfl (by decide) rfl rfl (by decide) (by decide)

/-- C7: a fully successful upload answers 200 with the updated record whose
video URL is `https://<bucket>.s3.<region>.amazonaws.com/<key>`, the key
being `<category>/<token>.<extension>` with the category the computed
classification (one of landscape/portrait/other), the token the padding-free
URL-safe base64 encoding of the 32 bytes drawn from `crypto/rand`, and the
extension the part of the declared media type after the `/`. -/
theorem success_response_shape (env : Env)
    (v t uid name : String) (rec : VideoRecord) (data : FFProbeOutput)
    (hv : env.parseVideoId = Except.ok v)
    (ht : env.bearerToken = Except.ok t)
    (hj : env.validateJWT = Except.ok uid)
    (hg : env.getVideo = Except.ok rec)
    (ho : rec.userID = uid)
    (hb : env.bodySize ≤ maxUploadBytes)
    (hf : env.formFile = Except.ok ())
    (hm : env.parseMediaType = Except.ok "video/mp4")
    (hc : env.createTemp = Except.ok name)
    (hcp : env.copyOk = true)
    (hr : env.randReadOk = true)
    (hpr : env.probe = some data)
    (hput : env.putObjectOk = true)
    (hupd : env.updateVideoOk = true) :
    ∃ aspect url,
      getVideoAspectRatio (some data) = Except.ok aspect
      ∧ url = "https://" ++ env.s3Bucket ++ ".s3." ++ env.s3Region ++ ".amazonaws.com/"
          ++ (directoryFor aspect ++ "/"
            ++ base64RawUrlEncode (List.ofFn env.randBytes) ++ "." ++ "mp4")
      ∧ (runHandler env).1 = HResult.resp 200 (RBody.record { rec with videoURL := some url })
      ∧ directoryFor aspect ∈ (["landscape", "portrait", "other"] : List String)
      ∧ (List.ofFn env.randBytes).length = 32
      ∧ (goSplitSlash "video/mp4")[1]? = some "mp4" := by
  refine ⟨classifyDims (lastVideoDims data.streams).1 (lastVideoDims data.streams).2,
    _, rfl, rfl, ?_, directoryFor_mem _, by simp, goSplitSlash_video_mp4⟩
  have hnb : ¬ maxUploadBytes < env.bodySize := not_lt.mpr hb
  simp [runHandler, afterStaging, getVideoAspectRatio, goSplitSlash_video_mp4,
    hv, ht, hj, hg, ho, hnb, hf, hm, hc, hcp, hr, hpr, hput, hupd]

/-- Witness for C7: the fully healthy sample request. -/
theorem success_response_shape_witness :
    ∃ aspect url,
      getVideoAspectRatio (some ⟨[⟨"video", 1920, 1080⟩]⟩) = Except.ok aspect
      ∧ url = "https://" ++ baseEnv.s3Bucket ++ ".s3." ++ baseEnv.s3Region ++ ".amazonaws.com/"
          ++ (directoryFor aspect ++ "/"
            ++ base64RawUrlEncode (List.ofFn baseEnv.randBytes) ++ "." ++ "mp4")
      ∧ (runHandler baseEnv).1 = HResult.resp 200 (RBody.record { sampleRecord with videoURL := some url })
      ∧ directoryFor aspect ∈ (["landscape", "portrait", "other"] : List String)
      ∧ (List.ofFn baseEnv.randBytes).length = 32
      ∧ (goSplitSlash "video/mp4")[1]? = some "mp4" :=
  success_response_shape baseEnv "vid-1" "token" "user-1" "tubely-upload.mp4"
    sampleRecord ⟨[⟨"video", 1920, 1080⟩]⟩ rfl rfl rfl rfl rfl (by decide)
    rfl rfl rfl rfl rfl rfl rfl rfl

/-- C10: a parsed media type with no `/` separator makes the video handler
index element 1 of a one-element split before the `video/mp4` check, an
out-of-range panic rather than a 400 rejection; the thumbnail handler
derives its extension the same unguarded way from the raw Content-Type. -/
theorem slashless_media_type_panics :
    (∀ (env : Env) (v t uid mt : String) (rec : VideoRecord),
      env.parseVideoId = Except.ok v → env.bearerToken = Except.ok t →
      env.validateJWT = Except.ok uid → env.getVideo = Except.ok rec →
      rec.userID = uid → env.bodySize ≤ maxUploadBytes →
      env.formFile = Except.ok () → env.parseMediaType = Except.ok mt →
      (goSplitSlash mt)[1]? = none →
      (runHandler env).1 = HResult.panicked)
    ∧ (∀ (tenv : ThumbEnv) (v t uid : String) (rec : VideoRecord),
      tenv.parseVideoId = Except.ok v → tenv.bearerToken = Except.ok t →
      tenv.validateJWT = Except.ok uid → tenv.formFile = Except.ok () →
      tenv.getVideo = Except.ok rec → uid = rec.userID →
      (goSplitSlash tenv.contentType)[1]? = none →
      runThumbnailHandler tenv = HResult.panicked) := by
  constructor
  · intro env v t uid mt rec hv ht hj hg ho hb hf hm hsplit
    have hnb : ¬ maxUploadBytes < env.bodySize := not_lt.mpr hb
    simp [runHandler, hv, ht, hj, hg, ho, hnb, hf, hm, hsplit]
  · intro tenv v t uid rec hv ht hj hf hg ho hsplit
    simp [runThumbnailHandler, hv, ht, hj, hf, hg, ho, hsplit]

/-- Witness for C10: `"videomp4"` in the video handler and `"png"` in the
thumbnail handler both panic. -/
theorem slashless_media_type_panics_witness :
    (runHandler { baseEnv with parseMediaType := Except.ok "videomp4" }).1 = HResult.panicked
    ∧ runThumbnailHandler { baseThumbEnv with contentType := "png" } = HResult.panicked :=
  ⟨slashless_media_type_panics.1 _ "vid-1" "token" "user-1" "videomp4" sampleRecord
      rfl rfl rfl rfl rfl (by decide) rfl rfl (by decide),
    slashless_media_type_panics.2 _ "vid-1" "token" "user-1" sampleRecord
      rfl rfl rfl rfl rfl rfl (by decide)⟩

end Tubely
